import Mathlib

set_option maxHeartbeats 1000000

/-!
Verification development for the liischte external-state mirror engine.

Part I contains shallow embeddings of the relevant Rust sources
(src/lib/src/pipewire/default.rs, src/lib/src/pipewire/node.rs,
src/lib/src/networkmanager.rs, src/lib/src/modemmanager.rs and the
fan-out channel wiring in src/lib/src/pipewire/mod.rs).
Part II contains the theorems settling the claims.
-/

/-! ## Part I: definitions -/

/-! ### Defaults metadata mirror (src/lib/src/pipewire/default.rs) -/

/-- Sentinel string for a defaults field that was never observed or failed
to parse (constant DEFAULT_STATE_UNKNOWN in default.rs). -/
def DEFAULT_STATE_UNKNOWN : String := "unknown"

/-- The four defaults fields mirrored from the pipewire metadata object
(struct DefaultState in default.rs). -/
structure DefaultState where
  configured_sink : String
  sink : String
  configured_source : String
  source : String
deriving DecidableEq, Repr

/-- The Default impl of DefaultState: every field starts at the sentinel. -/
def DefaultState.initial : DefaultState :=
  ⟨DEFAULT_STATE_UNKNOWN, DEFAULT_STATE_UNKNOWN, DEFAULT_STATE_UNKNOWN, DEFAULT_STATE_UNKNOWN⟩

/-- DefaultState::update from default.rs.  `parse` stands for the external
serde_json parse of a DefaultNodeValue, yielding its `name` field
(none models a parse failure).  A missing key is ignored (returns false),
an unrecognized key is logged and ignored (returns false); for each of the
four recognized keys the field is overwritten with the parsed value (the
sentinel on parse failure or missing value) and true is returned. -/
def DefaultState.update (parse : String → Option String) (s : DefaultState)
    (key : Option String) (value : Option String) : DefaultState × Bool :=
  match key with
  | none => (s, false)
  | some key =>
    let newVal : String := (value.bind parse).getD DEFAULT_STATE_UNKNOWN
    if key = "default.configured.audio.sink" then
      ({ s with configured_sink := newVal }, true)
    else if key = "default.audio.sink" then
      ({ s with sink := newVal }, true)
    else if key = "default.configured.audio.source" then
      ({ s with configured_source := newVal }, true)
    else if key = "default.audio.source" then
      ({ s with source := newVal }, true)
    else
      (s, false)

/-- The metadata property callback registered in DefaultTracker::attach:
it runs DefaultState::update on the shared state and sends the new state on
the defaults channel exactly when update returned true.  The second
component lists the messages sent on the channel. -/
def defaultPropertyCallback (parse : String → Option String) (s : DefaultState)
    (key value : Option String) : DefaultState × List DefaultState :=
  let r := DefaultState.update parse s key value
  if r.2 then (r.1, [r.1]) else (r.1, [])

/-- The four metadata keys recognized by DefaultState::update. -/
def defaultRecognizedKeys : List String :=
  ["default.configured.audio.sink", "default.audio.sink",
   "default.configured.audio.source", "default.audio.source"]

/-- The stored field a recognized key maps to in DefaultState::update. -/
def DefaultState.fieldOf (s : DefaultState) (key : String) : String :=
  if key = "default.configured.audio.sink" then s.configured_sink
  else if key = "default.audio.sink" then s.sink
  else if key = "default.configured.audio.source" then s.configured_source
  else s.source

/-! ### SPA pod values (src/lib/src/pipewire/node.rs)

The pod values node.rs builds and consumes nest at most two levels deep
(a route object whose props property holds a plain property object), so the
model stratifies them: `SpaPrim` for leaf values, `SpaObject` for a property
object with leaf values, `SpaValue`/`SpaTop` for a top-level object whose
property values may themselves be property objects.  Floats are idealized as
rationals; the perceptual cube-root scaling applied to incoming channel
volumes is an explicit parameter of the state-update functions (the actual
real-valued transform is modelled separately below). -/

/-- A leaf spa pod value (Value::Int, Value::Bool, ValueArray::Float). -/
inductive SpaPrim where
  | int : Int → SpaPrim
  | bool : Bool → SpaPrim
  | floatArray : List ℚ → SpaPrim
deriving DecidableEq, Repr

/-- A property object: object type tag, param type tag, keyed properties
with leaf values (the shape node.rs builds for Props objects). -/
structure SpaObject where
  otype : Nat
  oid : Nat
  props : List (Nat × SpaPrim)
deriving DecidableEq, Repr

/-- A property value of a top-level object: a leaf, or a nested property
object (Value::Object). -/
inductive SpaValue where
  | prim : SpaPrim → SpaValue
  | object : SpaObject → SpaValue
deriving DecidableEq, Repr

/-- A top-level object whose property values may be nested objects (the
shape of a Route param body). -/
structure SpaTop where
  otype : Nat
  oid : Nat
  props : List (Nat × SpaValue)
deriving DecidableEq, Repr

/-! Key and type tags from libspa (spa/param/route.h, spa/param/props.h,
spa/utils/type.h).  The proofs only rely on these being pairwise distinct. -/

def SPA_PARAM_ROUTE_index : Nat := 1
def SPA_PARAM_ROUTE_device : Nat := 3
def SPA_PARAM_ROUTE_props : Nat := 10
def SPA_PARAM_ROUTE_save : Nat := 13
def SPA_PROP_mute : Nat := 65538
def SPA_PROP_channelVolumes : Nat := 65542
def SPA_TYPE_OBJECT_Props : Nat := 262146
def SPA_TYPE_OBJECT_ParamRoute : Nat := 262153
def PARAM_TYPE_Props : Nat := 2
def PARAM_TYPE_Route : Nat := 13

/-- The `as u32` cast applied to a deserialized i32 route/index field. -/
def castU32 (v : Int) : Nat := (v % (2 ^ 32 : Int)).toNat

/-- The `as i32` cast applied to a u32 route/index when encoding. -/
def castI32 (n : Nat) : Int :=
  if n % 2 ^ 32 < 2 ^ 31 then ((n % 2 ^ 32 : Nat) : Int)
  else ((n % 2 ^ 32 : Nat) : Int) - 2 ^ 32

/-! ### Node and device tracking (src/lib/src/pipewire/node.rs) -/

/-- Node classes of interest (enum NodeClass). -/
inductive NodeClass where
  | source
  | sink
deriving DecidableEq, Repr

/-- Mirrored state of one node (struct NodeState). -/
structure NodeState where
  id : Nat
  name : String
  description : String
  mute : Bool
  volume : List ℚ
  route : Option Nat
deriving DecidableEq, Repr

/-- NodeState::new. -/
def NodeState.new (id : Nat) : NodeState :=
  ⟨id, "", "", false, [], none⟩

/-- NodeState::average_volume: channel sum divided by max(channel count, 1). -/
def NodeState.average_volume (s : NodeState) : ℚ :=
  s.volume.sum / ((max s.volume.length 1 : Nat) : ℚ)

/-- NodeState::update_params: folds over the properties of a Props object;
a channel-volume float array is rescaled per channel by `perceive` (the
cube root in the source) and stored, a mute boolean is stored, and the
changed flag records whether any stored value actually differed. -/
def NodeState.update_params (perceive : ℚ → ℚ) (s : NodeState)
    (props : List (Nat × SpaValue)) : NodeState × Bool :=
  props.foldl
    (fun (acc : NodeState × Bool) prop =>
      if prop.1 = SPA_PROP_channelVolumes then
        match prop.2 with
        | SpaValue.prim (SpaPrim.floatArray value) =>
          let value := value.map perceive
          ({ acc.1 with volume := value }, acc.2 || decide (value ≠ acc.1.volume))
        | _ => acc
      else if prop.1 = SPA_PROP_mute then
        match prop.2 with
        | SpaValue.prim (SpaPrim.bool value) =>
          ({ acc.1 with mute := value }, acc.2 || decide (value ≠ acc.1.mute))
        | _ => acc
      else acc)
    (s, false)

/-- One tracked node (struct NodeTrackerObject): owning device id if any,
class, and mirrored state.  The proxy and listener handles are not modelled;
`nclass` renders the source's `class` field (a Lean keyword). -/
structure NodeTrackerObject where
  device : Option Nat
  nclass : NodeClass
  state : NodeState
deriving DecidableEq, Repr

/-- One tracked device (struct DeviceTrackerObject): its RouteIndex table
mapping a route id to the provider's parameter index (HashMap rendered as an
association list). -/
structure DeviceTrackerObject where
  indices : List (Nat × Nat)
deriving DecidableEq, Repr

/-- The node tracker's mutable tables (struct NodeTracker); the broadcast
senders are modelled by returning the list of sent messages from each
operation. -/
structure NodeTracker where
  nodes : List (Nat × NodeTrackerObject)
  devices : List (Nat × DeviceTrackerObject)
deriving DecidableEq, Repr

/-- The snapshot NodeTracker::update sends for a class: the states of all
tracked nodes of that class, in table order. -/
def NodeTracker.snapshot (t : NodeTracker) (c : NodeClass) : List NodeState :=
  (t.nodes.filter (fun e => decide (e.2.nclass = c))).map (fun e => e.2.state)

/-- HashMap::insert on an association list: replace an existing binding,
otherwise append. -/
def insertAssoc (k v : Nat) (l : List (Nat × Nat)) : List (Nat × Nat) :=
  if l.any (fun e => decide (e.1 = k)) then
    l.map (fun e => if e.1 = k then (k, v) else e)
  else l ++ [(k, v)]

/-- NodeTracker::update_params_node.  The input is the deserialized param
body (none models a deserialization failure).  A node that is not tracked,
has a device, or receives a non-object body is left untouched with no
broadcast; otherwise its state is updated and, if changed, the class
snapshot is broadcast.  The second component lists the broadcasts sent. -/
def NodeTracker.update_params_node (perceive : ℚ → ℚ) (t : NodeTracker) (id : Nat)
    (params : Option SpaTop) : NodeTracker × List (NodeClass × List NodeState) :=
  match t.nodes.lookup id with
  | none => (t, [])
  | some node =>
    if node.device.isSome then
      (t, [])
    else
      match params with
      | some obj =>
        let r := NodeState.update_params perceive node.state obj.props
        let t2 : NodeTracker :=
          { t with nodes := t.nodes.map (fun e => if e.1 = id then (e.1, { e.2 with state := r.1 }) else e) }
        if r.2 then (t2, [(node.nclass, t2.snapshot node.nclass)]) else (t2, [])
      | none => (t, [])

/-- The route/index/props fields extracted from a deserialized Route param
body, in the fold order of update_params_device (later occurrences of a key
overwrite earlier ones, other keys and mistyped values are skipped). -/
def routeFields (props : List (Nat × SpaValue)) :
    Option Nat × Option Nat × Option SpaObject :=
  props.foldl
    (fun (acc : Option Nat × Option Nat × Option SpaObject) prop =>
      if prop.1 = SPA_PARAM_ROUTE_device then
        match prop.2 with
        | SpaValue.prim (SpaPrim.int v) => (some (castU32 v), acc.2.1, acc.2.2)
        | _ => acc
      else if prop.1 = SPA_PARAM_ROUTE_index then
        match prop.2 with
        | SpaValue.prim (SpaPrim.int v) => (acc.1, some (castU32 v), acc.2.2)
        | _ => acc
      else if prop.1 = SPA_PARAM_ROUTE_props then
        match prop.2 with
        | SpaValue.object obj => (acc.1, acc.2.1, some obj)
        | _ => acc
      else acc)
    (none, none, none)

/-- The find-first-and-update step of update_params_device: update the state
of the first node whose device and route both match, returning the new node
table and, if that node's state actually changed, its class. -/
def updateNodesFirst (perceive : ℚ → ℚ) (devId route : Nat)
    (params : List (Nat × SpaValue)) :
    List (Nat × NodeTrackerObject) → List (Nat × NodeTrackerObject) × Option NodeClass
  | [] => ([], none)
  | e :: rest =>
    if e.2.device = some devId ∧ e.2.state.route = some route then
      let r := NodeState.update_params perceive e.2.state params
      ((e.1, { e.2 with state := r.1 }) :: rest, if r.2 then some e.2.nclass else none)
    else
      let r := updateNodesFirst perceive devId route params rest
      (e :: r.1, r.2)

/-- NodeTracker::update_params_device.  For a complete route param body
(route, index and nested props all present) the device's RouteIndex table
records route → index, and the state of the first node matching both the
device id and the route id is updated from the nested props; if it changed,
that class's snapshot is broadcast.  Incomplete or non-object bodies are
logged and ignored. -/
def NodeTracker.update_params_device (perceive : ℚ → ℚ) (t : NodeTracker) (id : Nat)
    (params : Option SpaTop) : NodeTracker × List (NodeClass × List NodeState) :=
  match params with
  | some obj =>
    match routeFields obj.props with
    | (some route, some index, some nodeParams) =>
      let devices2 :=
        match t.devices.lookup id with
        | some _ =>
          t.devices.map (fun e => if e.1 = id then (e.1, ⟨insertAssoc route index e.2.indices⟩) else e)
        | none => t.devices
      let r := updateNodesFirst perceive id route
        (nodeParams.props.map (fun e => (e.1, SpaValue.prim e.2))) t.nodes
      let t2 : NodeTracker := ⟨r.1, devices2⟩
      match r.2 with
      | some c => (t2, [(c, t2.snapshot c)])
      | none => (t2, [])
    | _ => (t, [])
  | none => (t, [])

/-- The outcome of NodeTracker::set.  The first four cases are the logged
hard-failure branches that drop the command; the last two are the pod
actually handed to set_param, either a route object sent to the owning
device's proxy or the bare property object sent to the node's proxy.
Pod serialization itself (external library code) is modelled as succeeding
on these well-formed objects. -/
inductive SetResult where
  | notTracked
  | noRoute
  | deviceNotTracked
  | noIndex
  | sendRouteToDevice : Nat → SpaTop → SetResult
  | sendPropsToNode : Nat → SpaObject → SetResult
deriving DecidableEq, Repr

/-- NodeTracker::set: resolve the target node by display name (first match
in table order); a node owned by a device needs its route and the device's
recorded index for that route, and the property object is wrapped in a
four-property route object (device = route id, index, nested props,
save = true) sent to the device; a node without a device gets the bare
property object directly. -/
def NodeTracker.set (t : NodeTracker) (name : String) (object : SpaObject) : SetResult :=
  match t.nodes.find? (fun e => decide (e.2.state.name = name)) with
  | none => SetResult.notTracked
  | some e =>
    match e.2.device with
    | some device_id =>
      match e.2.state.route with
      | none => SetResult.noRoute
      | some route =>
        match t.devices.lookup device_id with
        | none => SetResult.deviceNotTracked
        | some device =>
          match device.indices.lookup route with
          | none => SetResult.noIndex
          | some index =>
            SetResult.sendRouteToDevice device_id
              ⟨SPA_TYPE_OBJECT_ParamRoute, PARAM_TYPE_Route,
                [(SPA_PARAM_ROUTE_device, SpaValue.prim (SpaPrim.int (castI32 route))),
                 (SPA_PARAM_ROUTE_index, SpaValue.prim (SpaPrim.int (castI32 index))),
                 (SPA_PARAM_ROUTE_props, SpaValue.object object),
                 (SPA_PARAM_ROUTE_save, SpaValue.prim (SpaPrim.bool true))]⟩
    | none => SetResult.sendPropsToNode e.2.state.id object

/-- NodeTracker::set_mute: a Props object with a single mute boolean. -/
def NodeTracker.set_mute (t : NodeTracker) (name : String) (mute : Bool) : SetResult :=
  NodeTracker.set t name
    ⟨SPA_TYPE_OBJECT_Props, PARAM_TYPE_Props, [(SPA_PROP_mute, SpaPrim.bool mute)]⟩

/-- NodeTracker::set_volume: each channel value is clamped to non-negative
and cubed (inverse of the perceptual scaling), then sent as a Props object
with a single channel-volume float array. -/
def NodeTracker.set_volume (t : NodeTracker) (name : String) (volume : List ℚ) : SetResult :=
  NodeTracker.set t name
    ⟨SPA_TYPE_OBJECT_Props, PARAM_TYPE_Props,
      [(SPA_PROP_channelVolumes,
        SpaPrim.floatArray (volume.map (fun v => (max v 0) ^ (3 : Nat))))]⟩

/-! ### Perceptual volume scaling (node.rs), idealized over the reals

NodeState::update_params stores `v.powf(1/3)` for each incoming linear
channel amplitude and NodeTracker::set_volume encodes `max(p, 0).powi(3)`
for each perceptual channel value; the f32 arithmetic is idealized as exact
real arithmetic. -/

/-- The perceptual value update_params stores for a linear amplitude:
its cube root. -/
noncomputable def perceivedOfLinear (v : ℝ) : ℝ := v ^ ((1 : ℝ) / 3)

/-- The linear amplitude set_volume encodes for a perceptual value:
clamp to non-negative, then cube. -/
noncomputable def linearOfPerceived (p : ℝ) : ℝ := (max p 0) ^ (3 : Nat)

/-! ### Single-slot fan-out channel

Modelled from the spec: the fan-out/broadcast primitive itself (the
capacity-1 tokio broadcast channels created in PipewireInstance::start and
the capacity-1 queues feeding the bus-mirror streams) is external library
code, so its delivery discipline is modelled from the spec's description:
one readable slot, a producer write always overwrites the slot without ever
blocking, and a consumer read takes the latest yet-unseen snapshot or
nothing.  Snapshots are identified by their write index (1, 2, 3, ...). -/

/-- An event on one channel: a producer write of the next snapshot, or a
consumer read attempt. -/
inductive ChanEvent where
  | write
  | read
deriving DecidableEq, Repr

/-- Channel-plus-consumer state: index of the latest written snapshot
(0 before any write), index of the last snapshot the consumer saw, and the
indices the consumer has observed, in order. -/
structure ChanState where
  latest : Nat
  seen : Nat
  observed : List Nat
deriving DecidableEq, Repr

/-- The empty channel. -/
def ChanState.initial : ChanState := ⟨0, 0, []⟩

/-- One step: a write bumps the latest snapshot unconditionally — the
producer is enabled in every state, regardless of the consumer — and a read
observes the latest snapshot if the consumer has not seen it yet, otherwise
finds the slot empty. -/
def ChanState.step (s : ChanState) (e : ChanEvent) : ChanState :=
  match e with
  | ChanEvent.write => { s with latest := s.latest + 1 }
  | ChanEvent.read =>
    if s.seen < s.latest then ⟨s.latest, s.latest, s.observed ++ [s.latest]⟩
    else s

/-- Run a schedule of writes and reads from the empty channel. -/
def ChanState.run (evs : List ChanEvent) : ChanState :=
  evs.foldl ChanState.step ChanState.initial

/-- Number of producer writes in a schedule. -/
def writeCount (evs : List ChanEvent) : Nat := evs.count ChanEvent.write

/-- Invariant of the channel model: the consumer never saw past the latest
write, observations are strictly increasing, bounded by what the consumer
saw, and the last observation is exactly the last snapshot seen. -/
def ChanInv (s : ChanState) : Prop :=
  s.seen ≤ s.latest
  ∧ s.observed.Pairwise (· < ·)
  ∧ (∀ i ∈ s.observed, 1 ≤ i ∧ i ≤ s.seen)
  ∧ ((s.observed = [] ∧ s.seen = 0) ∨ s.observed.getLast? = some s.seen)

/-! ### Sentinel filtering and strength loops
(src/lib/src/networkmanager.rs, src/lib/src/modemmanager.rs) -/

/-- The per-change mapping of NetworkManager::listen_primary_connection:
the provider's sentinel (empty path or root path "/") maps to none,
anything else to some path. -/
def primaryConnectionValue (path : String) : Option String :=
  if path = "" ∨ path = "/" then none else some path

/-- track_ap from listen_wireless_strength: the sentinel access-point path
is rejected before any bind attempt; otherwise one bind is attempted
(`bind` models AccessPointProxy::new_from_path; none is a bind failure,
logged and degraded to "no tracker").  The second component records the
identities a bind was attempted for. -/
def track_ap {α : Type} (bind : String → Option α) (ap : String) :
    Option α × List String :=
  if ap = "" ∨ ap = "/" then (none, [])
  else
    match bind ap with
    | none => (none, [ap])
    | some proxy => (some proxy, [ap])

/-- track_modem from listen_cellular_strength: textually the same guard and
bind structure as track_ap, for the modem identity string (`bind` models the
ModemProxy builder chain). -/
def track_modem {α : Type} (bind : String → Option α) (modem : String) :
    Option α × List String :=
  if modem = "" ∨ modem = "/" then (none, [])
  else
    match bind modem with
    | none => (none, [modem])
    | some proxy => (some proxy, [modem])

/-- The 0-100 integer strength normalization shared by both loops
(convert_strength): divide by 100, idealized over the rationals. -/
def convert_strength (strength : Nat) : ℚ := (strength : ℚ) / 100

/-- State of the strength loop shared by listen_wireless_strength and
listen_cellular_strength: the currently tracked object (none when the
selector resolved to the sentinel or the bind failed), the read flag
requesting an immediate pull, and the values sent on the output channel so
far. -/
structure StrengthLoopState (α : Type) where
  tracked : Option α
  read : Bool
  out : List ℚ

/-- Events the loop's biased select can deliver: a change of the active
selector (access point path / modem identity), or a push notification with
a new raw strength from the currently tracked object's stream. -/
inductive StrengthEvent where
  | selectorChanged (id : String)
  | notification (strength : Nat)

/-- The `if read { ... }` block at the top of both loops: clear the flag
and, when an object is tracked, actively pull its current strength
(`strengthOf` models the proxy strength/signal_quality getter; none is a
logged read failure) and push the converted value to the output channel. -/
def strengthLoopTop {α : Type} (strengthOf : α → Option Nat)
    (s : StrengthLoopState α) : StrengthLoopState α :=
  if s.read then
    match s.tracked with
    | some proxy =>
      match strengthOf proxy with
      | some q => ⟨s.tracked, false, s.out ++ [convert_strength q]⟩
      | none => ⟨s.tracked, false, s.out⟩
    | none => ⟨s.tracked, false, s.out⟩
  else s

/-- The select arms of both loops: a selector change re-tracks (through the
given track function, i.e. track_ap or track_modem) and sets the read flag;
a push notification from the tracked stream forwards the converted value
(with no tracked object the stream is pending, so the event is a no-op). -/
def strengthLoopBranch {α : Type} (track : String → Option α)
    (s : StrengthLoopState α) (ev : StrengthEvent) : StrengthLoopState α :=
  match ev with
  | StrengthEvent.selectorChanged id => ⟨track id, true, s.out⟩
  | StrengthEvent.notification q =>
    match s.tracked with
    | some _ => ⟨s.tracked, s.read, s.out ++ [convert_strength q]⟩
    | none => s

/-- One loop cycle: handle the selected event, then run the top-of-loop
pull block before the next event is awaited. -/
def strengthLoopStep {α : Type} (track : String → Option α)
    (strengthOf : α → Option Nat) (s : StrengthLoopState α)
    (ev : StrengthEvent) : StrengthLoopState α :=
  strengthLoopTop strengthOf (strengthLoopBranch track s ev)

/-- The whole loop: initially the selector's current value is tracked and
the read flag is set (read = true before the first iteration), then events
are processed in order. -/
def strengthLoopRun {α : Type} (track : String → Option α)
    (strengthOf : α → Option Nat) (init : String)
    (evs : List StrengthEvent) : StrengthLoopState α :=
  evs.foldl (strengthLoopStep track strengthOf)
    (strengthLoopTop strengthOf ⟨track init, true, []⟩)

/-! ### Active-connection reconciliation
(NetworkManager::listen_active_connections, src/lib/src/networkmanager.rs) -/

/-- Key lookup in the tracking table (HashMap::contains_key). -/
def hasKey {σ : Type} (t : List (String × σ)) (k : String) : Bool :=
  t.any (fun e => decide (e.1 = k))

/-- The add phase of the reconciliation branch: walk the fresh path list and
track every path not yet in the table (`track` models
TrackedActiveConnection::track; none is a logged failure and the path is not
added).  The accumulator carries the table and the paths a track (bind) was
attempted for. -/
def reconcileAdd {σ : Type} (track : String → Option σ) :
    List String → List (String × σ) × List String →
      List (String × σ) × List String
  | [], acc => acc
  | path :: rest, acc =>
    if hasKey acc.1 path then reconcileAdd track rest acc
    else
      match track path with
      | some st => reconcileAdd track rest (acc.1 ++ [(path, st)], acc.2 ++ [path])
      | none => reconcileAdd track rest (acc.1, acc.2 ++ [path])

/-- One reconciliation pass against a fresh complete path list: first drop
tracked entries absent from the new list (retain), then add the
newly-appearing ones.  Returns the new table, the paths for which a bind
was attempted, and the dropped keys. -/
def reconcile {σ : Type} (track : String → Option σ) (table : List (String × σ))
    (paths : List String) : List (String × σ) × List String × List String :=
  let removed := (table.filter (fun e => !decide (e.1 ∈ paths))).map (fun e => e.1)
  let retained := table.filter (fun e => decide (e.1 ∈ paths))
  let step := reconcileAdd track paths (retained, [])
  (step.1, step.2, removed)

/-! ## Part II: theorems -/

/-- Helper: a strictly increasing list of naturals whose members all occur
in a strictly increasing list is a sublist of it. -/
theorem pairwise_sublist_of_mem (L : List Nat) :
    ∀ l : List Nat, l.Pairwise (· < ·) → L.Pairwise (· < ·) →
      (∀ x ∈ l, x ∈ L) → l.Sublist L := by
  induction L with
  | nil =>
    intro l _ _ hsub
    cases l with
    | nil => exact List.Sublist.refl _
    | cons a l2 => exact absurd (hsub a (by simp)) (by simp)
  | cons b L ih =>
    intro l hl hL hsub
    cases l with
    | nil => exact List.nil_sublist _
    | cons a l2 =>
      obtain ⟨hal2, hl2⟩ := List.pairwise_cons.mp hl
      obtain ⟨hbL, hL2⟩ := List.pairwise_cons.mp hL
      rcases List.mem_cons.mp (hsub a (by simp)) with rfl | haL
      · refine List.Sublist.cons₂ a (ih l2 hl2 hL2 ?_)
        intro x hx
        rcases List.mem_cons.mp (hsub x (List.mem_cons_of_mem a hx)) with rfl | hxL
        · exact absurd (hal2 x hx) (lt_irrefl x)
        · exact hxL
      · refine List.Sublist.cons b (ih (a :: l2) hl hL2 ?_)
        intro x hx
        have hba : b < a := hbL a haL
        rcases List.mem_cons.mp hx with rfl | hx2
        · exact haL
        · rcases List.mem_cons.mp (hsub x hx) with rfl | hxL
          · exact absurd (hba.trans (hal2 x hx2)) (lt_irrefl x)
          · exact hxL

/-- Helper: each step of the channel model preserves the invariant. -/
theorem chanInv_step (s : ChanState) (e : ChanEvent) (h : ChanInv s) :
    ChanInv (ChanState.step s e) := by
  obtain ⟨h1, h2, h3, h4⟩ := h
  cases e with
  | write =>
    refine ⟨?_, h2, h3, h4⟩
    simp only [ChanState.step]
    omega
  | read =>
    by_cases hlt : s.seen < s.latest
    · simp only [ChanState.step, if_pos hlt]
      unfold ChanInv
      dsimp only
      refine ⟨le_refl _, ?_, ?_, ?_⟩
      · rw [List.pairwise_append]
        refine ⟨h2, List.pairwise_singleton _ _, ?_⟩
        intro x hx y hy
        rcases List.mem_singleton.mp hy with rfl
        have := (h3 x hx).2
        omega
      · intro i hi
        rcases List.mem_append.mp hi with hi | hi
        · have := h3 i hi
          omega
        · rcases List.mem_singleton.mp hi with rfl
          omega
      · right
        exact List.getLast?_concat _
    · simp only [ChanState.step, if_neg hlt]
      exact ⟨h1, h2, h3, h4⟩

/-- Helper: any schedule run from the empty channel satisfies the invariant,
and the latest index equals the number of writes. -/
theorem chanRun_spec (evs : List ChanEvent) :
    ChanInv (ChanState.run evs) ∧ (ChanState.run evs).latest = writeCount evs := by
  induction evs using List.reverseRecOn with
  | nil =>
    refine ⟨?_, rfl⟩
    unfold ChanInv
    exact ⟨le_refl 0, List.Pairwise.nil, fun i hi => absurd hi (List.not_mem_nil i),
      Or.inl ⟨rfl, rfl⟩⟩
  | append_singleton l e ih =>
    obtain ⟨hInv, hcount⟩ := ih
    have hrun : ChanState.run (l ++ [e]) = ChanState.step (ChanState.run l) e := by
      simp [ChanState.run, List.foldl_append]
    refine ⟨hrun ▸ chanInv_step _ _ hInv, ?_⟩
    rw [hrun]
    cases e with
    | write =>
      have hstep : (ChanState.step (ChanState.run l) ChanEvent.write).latest
          = (ChanState.run l).latest + 1 := rfl
      rw [hstep, hcount]
      simp [writeCount, List.count_append]
    | read =>
      have hlat : (ChanState.step (ChanState.run l) ChanEvent.read).latest
          = (ChanState.run l).latest := by
        simp only [ChanState.step]
        split <;> rfl
      rw [hlat, hcount]
      simp [writeCount, List.count_append]

/-- Claim C4: the producer's write is enabled in every channel state (a slow
consumer never blocks it); after any schedule the consumer's observations
are strictly increasing — it never observes a snapshot followed by an older
one — and form a subsequence of the writes s1, s2, s3; and a consumer that
reads after the third write always ends its observations with s3. -/
theorem c4_latest_wins (evs : List ChanEvent) (h3 : writeCount evs = 3) :
    (∀ s : ChanState, (ChanState.step s ChanEvent.write).latest = s.latest + 1)
    ∧ (ChanState.run evs).observed.Pairwise (· < ·)
    ∧ (ChanState.run evs).observed.Sublist [1, 2, 3]
    ∧ (ChanState.run (evs ++ [ChanEvent.read])).observed.getLast? = some 3 := by
  obtain ⟨⟨h1, h2, hmem, hlast⟩, hcount⟩ := chanRun_spec evs
  have hlat3 : (ChanState.run evs).latest = 3 := by rw [hcount, h3]
  refine ⟨fun s => rfl, h2, ?_, ?_⟩
  · refine pairwise_sublist_of_mem [1, 2, 3] _ h2 (by decide) ?_
    intro x hx
    obtain ⟨hb1, hb2⟩ := hmem x hx
    have hx3 : x ≤ 3 := by omega
    interval_cases x <;> decide
  · have hrun : ChanState.run (evs ++ [ChanEvent.read])
        = ChanState.step (ChanState.run evs) ChanEvent.read := by
      simp [ChanState.run, List.foldl_append]
    rw [hrun]
    by_cases hlt : (ChanState.run evs).seen < (ChanState.run evs).latest
    · simp only [ChanState.step, if_pos hlt]
      rw [List.getLast?_concat, hlat3]
    · simp only [ChanState.step, if_neg hlt]
      have hseen : (ChanState.run evs).seen = 3 := by omega
      rcases hlast with ⟨_, h0⟩ | h
      · omega
      · rw [h, hseen]

/-- Witness for c4_latest_wins on the schedule write, write, read, write
(the consumer misses s2, sees s1 and then s3). -/
theorem c4_latest_wins_witness :
    writeCount [ChanEvent.write, ChanEvent.write, ChanEvent.read, ChanEvent.write] = 3
    ∧ ((∀ s : ChanState, (ChanState.step s ChanEvent.write).latest = s.latest + 1)
      ∧ (ChanState.run [ChanEvent.write, ChanEvent.write, ChanEvent.read,
          ChanEvent.write]).observed.Pairwise (· < ·)
      ∧ (ChanState.run [ChanEvent.write, ChanEvent.write, ChanEvent.read,
          ChanEvent.write]).observed.Sublist [1, 2, 3]
      ∧ (ChanState.run ([ChanEvent.write, ChanEvent.write, ChanEvent.read,
          ChanEvent.write] ++ [ChanEvent.read])).observed.getLast? = some 3) :=
  ⟨by decide,
   c4_latest_wins [ChanEvent.write, ChanEvent.write, ChanEvent.read, ChanEvent.write]
     (by decide)⟩

/-- Claim C3: the mirror stores the cube root of each linear amplitude and
set_volume applies clamp-then-cube; over the idealized reals the two are
mutually inverse — cube (cube_root v) = v for linear v in [0, 1], and
cube_root (cube p) = p for perceptual p ≥ 0 (exact equality, hence within
any floating-point tolerance). -/
theorem c3_volume_round_trip (v p : ℝ) (hv0 : 0 ≤ v) (hv1 : v ≤ 1) (hp : 0 ≤ p) :
    linearOfPerceived (perceivedOfLinear v) = v
    ∧ perceivedOfLinear (linearOfPerceived p) = p := by
  constructor
  · have hnn : 0 ≤ v ^ ((1 : ℝ) / 3) := Real.rpow_nonneg hv0 _
    rw [linearOfPerceived, perceivedOfLinear, max_eq_left hnn,
      ← Real.rpow_natCast (v ^ ((1 : ℝ) / 3)) 3, ← Real.rpow_mul hv0]
    norm_num
  · rw [linearOfPerceived, perceivedOfLinear, max_eq_left hp,
      ← Real.rpow_natCast p 3, ← Real.rpow_mul hp]
    norm_num

/-- Witness for c3_volume_round_trip at linear amplitude 1/2 and perceptual
value 2. -/
theorem c3_volume_round_trip_witness :
    ((0 : ℝ) ≤ 1 / 2 ∧ (1 / 2 : ℝ) ≤ 1 ∧ (0 : ℝ) ≤ 2)
    ∧ (linearOfPerceived (perceivedOfLinear (1 / 2)) = 1 / 2
      ∧ perceivedOfLinear (linearOfPerceived 2) = 2) :=
  ⟨⟨by norm_num, by norm_num, by norm_num⟩,
   c3_volume_round_trip (1 / 2) 2 (by norm_num) (by norm_num) (by norm_num)⟩

/-- Claim C1, counterexample: delivering a property-change notification for
the recognized key default.configured.audio.sink whose parsed value ("foo")
equals the field's current value makes DefaultState::update return true, and
the metadata property callback does send on the defaults channel — the claim
says update returns false and no send happens. -/
theorem c1_counterexample :
    (((some ("foo") : Option String).bind (fun v => some v)).getD DEFAULT_STATE_UNKNOWN
        = (DefaultState.mk ("foo") ("bar") ("u") ("v")).configured_sink)
    ∧ (DefaultState.update (fun v => some v) (DefaultState.mk ("foo") ("bar") ("u") ("v"))
        (some ("default.configured.audio.sink")) (some ("foo"))).2 = true
    ∧ defaultPropertyCallback (fun v => some v) (DefaultState.mk ("foo") ("bar") ("u") ("v"))
        (some ("default.configured.audio.sink")) (some ("foo"))
      ≠ ((DefaultState.mk ("foo") ("bar") ("u") ("v")), []) := by
  refine ⟨rfl, rfl, ?_⟩
  decide

/-- Claim C1 amended: for every recognized defaults key, DefaultState::update
returns true unconditionally — in particular, when the incoming value parses
to exactly the value already stored, the state is returned unchanged yet
update still reports a change, and the metadata property callback republishes
the (unchanged) state on the defaults channel. -/
theorem c1_amended (parse : String → Option String) (s : DefaultState)
    (key : String) (value : Option String)
    (hk : key ∈ defaultRecognizedKeys)
    (hv : (value.bind parse).getD DEFAULT_STATE_UNKNOWN = DefaultState.fieldOf s key) :
    DefaultState.update parse s (some key) value = (s, true)
    ∧ defaultPropertyCallback parse s (some key) value = (s, [s]) := by
  have hupd : DefaultState.update parse s (some key) value = (s, true) := by
    fin_cases hk <;>
      simp [DefaultState.update, DefaultState.fieldOf] at hv ⊢ <;>
      simp [hv]
  refine ⟨hupd, ?_⟩
  simp [defaultPropertyCallback, hupd]

/-- Witness for c1_amended at a concrete state and key. -/
theorem c1_amended_witness :
    (("default.audio.sink") ∈ defaultRecognizedKeys
      ∧ (((some ("x") : Option String).bind (fun v => some v)).getD DEFAULT_STATE_UNKNOWN
          = DefaultState.fieldOf (DefaultState.mk ("a") ("x") ("b") ("c")) ("default.audio.sink")))
    ∧ (DefaultState.update (fun v => some v) (DefaultState.mk ("a") ("x") ("b") ("c"))
          (some ("default.audio.sink")) (some ("x")) = ((DefaultState.mk ("a") ("x") ("b") ("c")), true)
        ∧ defaultPropertyCallback (fun v => some v) (DefaultState.mk ("a") ("x") ("b") ("c"))
          (some ("default.audio.sink")) (some ("x"))
          = ((DefaultState.mk ("a") ("x") ("b") ("c")), [DefaultState.mk ("a") ("x") ("b") ("c")])) :=
  ⟨⟨by decide, by decide⟩,
    c1_amended (fun v => some v) (DefaultState.mk ("a") ("x") ("b") ("c"))
      ("default.audio.sink") (some ("x")) (by decide) (by decide)⟩

/-- Helper: updateNodesFirst only ever rewrites an entry whose node matches
both the device id and the route id; every other entry is passed through
unchanged. -/
theorem updateNodesFirst_forall2 (perceive : ℚ → ℚ) (devId route : Nat)
    (params : List (Nat × SpaValue)) (l : List (Nat × NodeTrackerObject)) :
    List.Forall₂
      (fun a b => a = b ∨ (a.2.device = some devId ∧ a.2.state.route = some route))
      l (updateNodesFirst perceive devId route params l).1 := by
  induction l with
  | nil => simp [updateNodesFirst]
  | cons e rest ih =>
    by_cases h : e.2.device = some devId ∧ e.2.state.route = some route
    · simp only [updateNodesFirst, if_pos h]
      exact List.Forall₂.cons (Or.inr h) (List.forall₂_same.mpr (fun x _ => Or.inl rfl))
    · simp only [updateNodesFirst, if_neg h]
      exact List.Forall₂.cons (Or.inl rfl) ih

/-- Claim C2, counterexample: a node "n" with device field D = 5 and route
R = 2, where device 5 records index I = 7 for route 2.  The encoded route
object's device property holds the route id 2, not the device id 5 as the
claim states (the device id only selects the proxy the object is sent to). -/
theorem c2_counterexample :
    NodeTracker.set_mute
        ⟨[(10, ⟨some 5, NodeClass.sink, ⟨10, "n", "", false, [], some 2⟩⟩)],
         [(5, ⟨[(2, 7)]⟩)]⟩ ("n") true
      = SetResult.sendRouteToDevice 5
          ⟨SPA_TYPE_OBJECT_ParamRoute, PARAM_TYPE_Route,
            [(SPA_PARAM_ROUTE_device, SpaValue.prim (SpaPrim.int 2)),
             (SPA_PARAM_ROUTE_index, SpaValue.prim (SpaPrim.int 7)),
             (SPA_PARAM_ROUTE_props,
               SpaValue.object ⟨SPA_TYPE_OBJECT_Props, PARAM_TYPE_Props,
                 [(SPA_PROP_mute, SpaPrim.bool true)]⟩),
             (SPA_PARAM_ROUTE_save, SpaValue.prim (SpaPrim.bool true))]⟩
    ∧ SpaValue.prim (SpaPrim.int 2) ≠ SpaValue.prim (SpaPrim.int 5) := by
  refine ⟨by decide, by decide⟩

/-- Claim C2 amended: for a tracked node whose device field is Some D, with
route R and index I recorded for R in device D's RouteIndex table,
NodeTracker::set encodes a route object with exactly four properties —
device = R (the route id, not the device id D), index = I, the nested
property object (carrying e.g. the mute boolean), and save/persist = true —
and sends it to device D's proxy; for a node with no device the same command
sends the bare property object directly to the node. -/
theorem c2_amended (t : NodeTracker) (name : String) (object : SpaObject)
    (e : Nat × NodeTrackerObject)
    (hfind : t.nodes.find? (fun x => decide (x.2.state.name = name)) = some e) :
    (∀ D R I dev, e.2.device = some D → e.2.state.route = some R →
      t.devices.lookup D = some dev → dev.indices.lookup R = some I →
      NodeTracker.set t name object
        = SetResult.sendRouteToDevice D
            ⟨SPA_TYPE_OBJECT_ParamRoute, PARAM_TYPE_Route,
              [(SPA_PARAM_ROUTE_device, SpaValue.prim (SpaPrim.int (castI32 R))),
               (SPA_PARAM_ROUTE_index, SpaValue.prim (SpaPrim.int (castI32 I))),
               (SPA_PARAM_ROUTE_props, SpaValue.object object),
               (SPA_PARAM_ROUTE_save, SpaValue.prim (SpaPrim.bool true))]⟩)
    ∧ (e.2.device = none →
        NodeTracker.set t name object = SetResult.sendPropsToNode e.2.state.id object)
    ∧ (∀ m, NodeTracker.set_mute t name m
        = NodeTracker.set t name ⟨SPA_TYPE_OBJECT_Props, PARAM_TYPE_Props,
            [(SPA_PROP_mute, SpaPrim.bool m)]⟩) := by
  refine ⟨?_, ?_, fun m => rfl⟩
  · intro D R I dev hD hR hdev hI
    simp [NodeTracker.set, hfind, hD, hR, hdev, hI]
  · intro hD
    simp [NodeTracker.set, hfind, hD]

/-- Witness for c2_amended at the concrete tracker of the counterexample
(route case) and at a deviceless node (bare case). -/
theorem c2_amended_witness :
    (NodeTracker.set
        ⟨[(10, ⟨some 5, NodeClass.sink, ⟨10, "n", "", false, [], some 2⟩⟩)],
         [(5, ⟨[(2, 7)]⟩)]⟩ ("n")
        ⟨SPA_TYPE_OBJECT_Props, PARAM_TYPE_Props, [(SPA_PROP_mute, SpaPrim.bool true)]⟩
      = SetResult.sendRouteToDevice 5
          ⟨SPA_TYPE_OBJECT_ParamRoute, PARAM_TYPE_Route,
            [(SPA_PARAM_ROUTE_device, SpaValue.prim (SpaPrim.int (castI32 2))),
             (SPA_PARAM_ROUTE_index, SpaValue.prim (SpaPrim.int (castI32 7))),
             (SPA_PARAM_ROUTE_props,
               SpaValue.object ⟨SPA_TYPE_OBJECT_Props, PARAM_TYPE_Props,
                 [(SPA_PROP_mute, SpaPrim.bool true)]⟩),
             (SPA_PARAM_ROUTE_save, SpaValue.prim (SpaPrim.bool true))]⟩)
    ∧ (NodeTracker.set
        ⟨[(11, ⟨none, NodeClass.sink, ⟨11, "m", "", false, [], none⟩⟩)], []⟩ ("m")
        ⟨SPA_TYPE_OBJECT_Props, PARAM_TYPE_Props, [(SPA_PROP_mute, SpaPrim.bool true)]⟩
      = SetResult.sendPropsToNode 11
          ⟨SPA_TYPE_OBJECT_Props, PARAM_TYPE_Props, [(SPA_PROP_mute, SpaPrim.bool true)]⟩) :=
  ⟨(c2_amended
      ⟨[(10, ⟨some 5, NodeClass.sink, ⟨10, "n", "", false, [], some 2⟩⟩)],
       [(5, ⟨[(2, 7)]⟩)]⟩
      ("n")
      ⟨SPA_TYPE_OBJECT_Props, PARAM_TYPE_Props, [(SPA_PROP_mute, SpaPrim.bool true)]⟩
      (10, ⟨some 5, NodeClass.sink, ⟨10, "n", "", false, [], some 2⟩⟩)
      (by decide)).1 5 2 7 ⟨[(2, 7)]⟩ rfl rfl (by decide) (by decide),
   (c2_amended
      ⟨[(11, ⟨none, NodeClass.sink, ⟨11, "m", "", false, [], none⟩⟩)], []⟩
      ("m")
      ⟨SPA_TYPE_OBJECT_Props, PARAM_TYPE_Props, [(SPA_PROP_mute, SpaPrim.bool true)]⟩
      (11, ⟨none, NodeClass.sink, ⟨11, "m", "", false, [], none⟩⟩)
      (by decide)).2.1 rfl⟩

/-- Claim C8: a volume or mute command for a node routed through a device
whose RouteIndex table has no entry for the node's route id resolves to the
logged-and-dropped noIndex failure: nothing is sent to any proxy (the set
operation never reaches a send result, and by construction it mutates no
tracked state). -/
theorem c8_missing_index (t : NodeTracker) (name : String)
    (e : Nat × NodeTrackerObject) (D R : Nat) (dev : DeviceTrackerObject)
    (hfind : t.nodes.find? (fun x => decide (x.2.state.name = name)) = some e)
    (hD : e.2.device = some D) (hR : e.2.state.route = some R)
    (hdev : t.devices.lookup D = some dev)
    (hI : dev.indices.lookup R = none) :
    (∀ object, NodeTracker.set t name object = SetResult.noIndex)
    ∧ (∀ m, NodeTracker.set_mute t name m = SetResult.noIndex)
    ∧ (∀ vol, NodeTracker.set_volume t name vol = SetResult.noIndex)
    ∧ (∀ object d o, NodeTracker.set t name object ≠ SetResult.sendRouteToDevice d o)
    ∧ (∀ object n o, NodeTracker.set t name object ≠ SetResult.sendPropsToNode n o) := by
  have hset : ∀ object, NodeTracker.set t name object = SetResult.noIndex := by
    intro object
    simp [NodeTracker.set, hfind, hD, hR, hdev, hI]
  refine ⟨hset, fun m => hset _, fun vol => hset _, ?_, ?_⟩
  · intro object d o
    simp [hset]
  · intro object n o
    simp [hset]

/-- Witness for c8_missing_index: a node on device 5 with route 3 while the
device's RouteIndex table only records route 2. -/
theorem c8_missing_index_witness :
    NodeTracker.set_mute
        ⟨[(10, ⟨some 5, NodeClass.sink, ⟨10, "n", "", false, [], some 3⟩⟩)],
         [(5, ⟨[(2, 7)]⟩)]⟩ ("n") true
      = SetResult.noIndex :=
  (c8_missing_index
      ⟨[(10, ⟨some 5, NodeClass.sink, ⟨10, "n", "", false, [], some 3⟩⟩)],
       [(5, ⟨[(2, 7)]⟩)]⟩
      ("n")
      (10, ⟨some 5, NodeClass.sink, ⟨10, "n", "", false, [], some 3⟩⟩)
      5 3 ⟨[(2, 7)]⟩ (by decide) rfl rfl (by decide) (by decide)).2.1 true

/-- Claim C9: NodeState::average_volume divides the channel sum by
max(channel count, 1), whose rational image is never zero, and on an empty
volume vector the result is 0. -/
theorem c9_average_volume_safe (s : NodeState) (h : s.volume = []) :
    (∀ s2 : NodeState, ((max s2.volume.length 1 : Nat) : ℚ) ≠ 0)
    ∧ NodeState.average_volume s = 0 := by
  constructor
  · intro s2
    have : 0 < max s2.volume.length 1 := by omega
    exact_mod_cast this.ne.symm
  · simp [NodeState.average_volume, h]

/-- Witness for c9_average_volume_safe at a freshly created node. -/
theorem c9_average_volume_safe_witness :
    (NodeState.new 3).volume = []
    ∧ NodeState.average_volume (NodeState.new 3) = 0 :=
  ⟨rfl, (c9_average_volume_safe (NodeState.new 3) rfl).2⟩

/-- Claim C10: a direct node param notification for a tracked node whose
device field is Some leaves the tracker unchanged and broadcasts nothing
(update_params_node skips it); and in a device route param update, the only
node entry that can change is one matching both the device id and the parsed
route id — all other entries pass through unchanged. -/
theorem c10_device_owned_updates (perceive : ℚ → ℚ) (t t2 : NodeTracker)
    (nodeId devId : Nat) (params : Option SpaTop) (node : NodeTrackerObject)
    (obj : SpaTop) (R I : Nat) (P : SpaObject)
    (hlook : t.nodes.lookup nodeId = some node)
    (hdev : node.device.isSome = true)
    (hroute : routeFields obj.props = (some R, some I, some P)) :
    NodeTracker.update_params_node perceive t nodeId params = (t, [])
    ∧ List.Forall₂
        (fun a b => a = b ∨ (a.2.device = some devId ∧ a.2.state.route = some R))
        t2.nodes
        (NodeTracker.update_params_device perceive t2 devId (some obj)).1.nodes := by
  constructor
  · simp [NodeTracker.update_params_node, hlook, hdev]
  · have hforall := updateNodesFirst_forall2 perceive devId R
      (P.props.map (fun e => (e.1, SpaValue.prim e.2))) t2.nodes
    simp only [NodeTracker.update_params_device, hroute]
    cases hru : (updateNodesFirst perceive devId R
        (P.props.map (fun e => (e.1, SpaValue.prim e.2))) t2.nodes).2 with
    | none => simpa [hru] using hforall
    | some c => simpa [hru] using hforall

/-- Witness for c10_device_owned_updates on a two-node tracker: the
device-owned node 10 ignores a direct param notification, and a route param
update on device 5 for route 2 leaves the unrelated node 11 untouched. -/
theorem c10_device_owned_updates_witness :
    NodeTracker.update_params_node (fun q => q)
        ⟨[(10, ⟨some 5, NodeClass.sink, ⟨10, "n", "", true, [], some 2⟩⟩)], []⟩ 10
        (some ⟨SPA_TYPE_OBJECT_Props, PARAM_TYPE_Props,
          [(SPA_PROP_mute, SpaValue.prim (SpaPrim.bool false))]⟩)
      = (⟨[(10, ⟨some 5, NodeClass.sink, ⟨10, "n", "", true, [], some 2⟩⟩)], []⟩, [])
    ∧ List.Forall₂
        (fun a b => a = b ∨ (a.2.device = some 5 ∧ a.2.state.route = some 2))
        [(11, ⟨none, NodeClass.source, ⟨11, "m", "", false, [], none⟩⟩)]
        (NodeTracker.update_params_device (fun q => q)
          ⟨[(11, ⟨none, NodeClass.source, ⟨11, "m", "", false, [], none⟩⟩)], []⟩ 5
          (some ⟨SPA_TYPE_OBJECT_ParamRoute, PARAM_TYPE_Route,
            [(SPA_PARAM_ROUTE_device, SpaValue.prim (SpaPrim.int 2)),
             (SPA_PARAM_ROUTE_index, SpaValue.prim (SpaPrim.int 7)),
             (SPA_PARAM_ROUTE_props,
               SpaValue.object ⟨SPA_TYPE_OBJECT_Props, PARAM_TYPE_Props,
                 [(SPA_PROP_mute, SpaPrim.bool true)]⟩)]⟩)).1.nodes :=
  (c10_device_owned_updates (fun q => q)
      ⟨[(10, ⟨some 5, NodeClass.sink, ⟨10, "n", "", true, [], some 2⟩⟩)], []⟩
      ⟨[(11, ⟨none, NodeClass.source, ⟨11, "m", "", false, [], none⟩⟩)], []⟩
      10 5
      (some ⟨SPA_TYPE_OBJECT_Props, PARAM_TYPE_Props,
        [(SPA_PROP_mute, SpaValue.prim (SpaPrim.bool false))]⟩)
      ⟨some 5, NodeClass.sink, ⟨10, "n", "", true, [], some 2⟩⟩
      ⟨SPA_TYPE_OBJECT_ParamRoute, PARAM_TYPE_Route,
        [(SPA_PARAM_ROUTE_device, SpaValue.prim (SpaPrim.int 2)),
         (SPA_PARAM_ROUTE_index, SpaValue.prim (SpaPrim.int 7)),
         (SPA_PARAM_ROUTE_props,
           SpaValue.object ⟨SPA_TYPE_OBJECT_Props, PARAM_TYPE_Props,
             [(SPA_PROP_mute, SpaPrim.bool true)]⟩)]⟩
      2 7
      ⟨SPA_TYPE_OBJECT_Props, PARAM_TYPE_Props, [(SPA_PROP_mute, SpaPrim.bool true)]⟩
      (by decide) rfl (by decide))

/-- Claim C5: an identity equal to the provider's sentinel (empty string or
root path "/") makes the primary-connection stream yield none, and makes
both the access-point tracker and the modem tracker return "no object"
without ever attempting a bind (the attempted-bind log stays empty). -/
theorem c5_sentinel_filtering (s : String) (h : s = "" ∨ s = "/") :
    primaryConnectionValue s = none
    ∧ (∀ (α : Type) (bind : String → Option α), track_ap bind s = (none, []))
    ∧ (∀ (α : Type) (bind : String → Option α), track_modem bind s = (none, [])) := by
  refine ⟨?_, ?_, ?_⟩
  · simp [primaryConnectionValue, h]
  · intro α bind
    simp [track_ap, h]
  · intro α bind
    simp [track_modem, h]

/-- Witness for c5_sentinel_filtering at the root-path sentinel, with a bind
oracle that would succeed if it were consulted. -/
theorem c5_sentinel_filtering_witness :
    (("/" : String) = "" ∨ ("/" : String) = "/")
    ∧ (primaryConnectionValue ("/") = none
      ∧ (∀ (α : Type) (bind : String → Option α), track_ap bind ("/") = (none, []))
      ∧ (∀ (α : Type) (bind : String → Option α), track_modem bind ("/") = (none, []))) :=
  ⟨Or.inr rfl, c5_sentinel_filtering ("/") (Or.inr rfl)⟩

/-- Helper: reconcileAdd never removes a key from the table. -/
theorem reconcileAdd_mono {σ : Type} (track : String → Option σ)
    (paths : List String) :
    ∀ acc k, hasKey acc.1 k = true → hasKey (reconcileAdd track paths acc).1 k = true := by
  induction paths with
  | nil =>
    intro acc k h
    exact h
  | cons p rest ih =>
    intro acc k h
    simp only [reconcileAdd]
    by_cases hp : hasKey acc.1 p = true
    · rw [if_pos hp]
      exact ih acc k h
    · rw [if_neg hp]
      cases htr : track p with
      | some st =>
        refine ih _ k ?_
        simp [hasKey, List.any_append] at h ⊢
        exact Or.inl h
      | none => exact ih _ k h

/-- Helper: when track succeeds on every path of the list, every path of
the list has a key in the table reconcileAdd produces. -/
theorem reconcileAdd_covers {σ : Type} (track : String → Option σ) :
    ∀ paths : List String, (∀ p ∈ paths, (track p).isSome = true) →
      ∀ acc, ∀ p ∈ paths, hasKey (reconcileAdd track paths acc).1 p = true := by
  intro paths
  induction paths with
  | nil =>
    intro _ acc p hp
    exact absurd hp (List.not_mem_nil p)
  | cons q rest ih =>
    intro hS acc p hp
    have hS2 : ∀ x ∈ rest, (track x).isSome = true :=
      fun x hx => hS x (List.mem_cons_of_mem _ hx)
    simp only [reconcileAdd]
    rcases List.mem_cons.mp hp with rfl | hp2
    · by_cases hq : hasKey acc.1 p = true
      · rw [if_pos hq]
        exact reconcileAdd_mono track rest acc p hq
      · rw [if_neg hq]
        cases htr : track p with
        | some st =>
          refine reconcileAdd_mono track rest _ p ?_
          simp [hasKey, List.any_append]
        | none =>
          have := hS p (by simp)
          rw [htr] at this
          exact absurd this (by simp)
    · by_cases hq : hasKey acc.1 q = true
      · rw [if_pos hq]
        exact ih hS2 _ p hp2
      · rw [if_neg hq]
        cases htr : track q with
        | some st => exact ih hS2 _ p hp2
        | none => exact ih hS2 _ p hp2

/-- Helper: when every path is already keyed in the table, reconcileAdd does
nothing: no entry is added and no bind is attempted. -/
theorem reconcileAdd_noop {σ : Type} (track : String → Option σ) :
    ∀ paths : List String, ∀ acc, (∀ p ∈ paths, hasKey acc.1 p = true) →
      reconcileAdd track paths acc = acc := by
  intro paths
  induction paths with
  | nil =>
    intro acc _
    rfl
  | cons q rest ih =>
    intro acc h
    simp only [reconcileAdd]
    rw [if_pos (h q (by simp))]
    exact ih acc (fun p hp => h p (List.mem_cons_of_mem _ hp))

/-- Helper: every entry of the table reconcileAdd produces was already in
the accumulator or is keyed by one of the walked paths. -/
theorem reconcileAdd_keys {σ : Type} (track : String → Option σ) :
    ∀ paths : List String, ∀ acc e, e ∈ (reconcileAdd track paths acc).1 →
      e ∈ acc.1 ∨ e.1 ∈ paths := by
  intro paths
  induction paths with
  | nil =>
    intro acc e h
    exact Or.inl h
  | cons q rest ih =>
    intro acc e h
    simp only [reconcileAdd] at h
    by_cases hq : hasKey acc.1 q = true
    · rw [if_pos hq] at h
      rcases ih acc e h with h2 | h2
      · exact Or.inl h2
      · exact Or.inr (List.mem_cons_of_mem _ h2)
    · rw [if_neg hq] at h
      cases htr : track q with
      | some st =>
        rw [htr] at h
        rcases ih _ e h with h2 | h2
        · rcases List.mem_append.mp h2 with h3 | h3
          · exact Or.inl h3
          · rcases List.mem_singleton.mp h3 with rfl
            exact Or.inr (by simp)
        · exact Or.inr (List.mem_cons_of_mem _ h2)
      | none =>
        rw [htr] at h
        rcases ih _ e h with h2 | h2
        · exact Or.inl h2
        · exact Or.inr (List.mem_cons_of_mem _ h2)

/-- Claim C6: reconciliation is idempotent when tracking succeeds on the
member set: after one reconcile against S, every identity of S is in the
table, and a second reconcile against the same S attempts no bind, drops
nothing and leaves the table unchanged. -/
theorem c6_reconcile_idempotent {σ : Type} (track : String → Option σ)
    (table : List (String × σ)) (S : List String)
    (hS : ∀ p ∈ S, (track p).isSome = true) :
    (∀ p ∈ S, hasKey (reconcile track table S).1 p = true)
    ∧ reconcile track (reconcile track table S).1 S
        = ((reconcile track table S).1, [], []) := by
  have hcover : ∀ p ∈ S, hasKey (reconcile track table S).1 p = true := by
    intro p hp
    exact reconcileAdd_covers track S hS _ p hp
  have hkeys : ∀ e ∈ (reconcile track table S).1, e.1 ∈ S := by
    intro e he
    rcases reconcileAdd_keys track S _ e he with h2 | h2
    · have := (List.mem_filter.mp h2).2
      exact of_decide_eq_true this
    · exact h2
  refine ⟨hcover, ?_⟩
  have hretain : (reconcile track table S).1.filter (fun e => decide (e.1 ∈ S))
      = (reconcile track table S).1 :=
    List.filter_eq_self.mpr (fun e he => decide_eq_true (hkeys e he))
  have hremoved : (reconcile track table S).1.filter (fun e => !decide (e.1 ∈ S))
      = [] := by
    rw [List.filter_eq_nil_iff]
    intro e he
    simp [hkeys e he]
  have hnoop : reconcileAdd track S
      ((reconcile track table S).1.filter (fun e => decide (e.1 ∈ S)), [])
      = ((reconcile track table S).1.filter (fun e => decide (e.1 ∈ S)), []) := by
    refine reconcileAdd_noop track S _ ?_
    intro p hp
    rw [hretain]
    exact hcover p hp
  show ((reconcileAdd track S (_, [])).1, (reconcileAdd track S (_, [])).2, _) = _
  rw [hnoop, hretain, hremoved]
  simp

/-- Witness for c6_reconcile_idempotent starting from an empty table and the
identity set ["a", "b"]. -/
theorem c6_reconcile_idempotent_witness :
    (∀ p ∈ (["a", "b"] : List String), ((fun _ => some 0) p : Option Nat).isSome = true)
    ∧ ((∀ p ∈ (["a", "b"] : List String),
          hasKey (reconcile (fun _ => some 0) ([] : List (String × Nat)) ["a", "b"]).1 p = true)
      ∧ reconcile (fun _ => some 0)
          (reconcile (fun _ => some 0) ([] : List (String × Nat)) ["a", "b"]).1 ["a", "b"]
        = ((reconcile (fun _ => some 0) ([] : List (String × Nat)) ["a", "b"]).1, [], [])) :=
  ⟨fun p _ => rfl,
   c6_reconcile_idempotent (fun _ => some 0) ([] : List (String × Nat)) ["a", "b"]
     (fun p _ => rfl)⟩

/-- Claim C7: after any prefix of events, processing a selector change whose
new identity binds successfully makes the loop pull the provider's current
strength and push it to the output immediately — the output grows by exactly
that one converted value before any further event is processed — and the
conversion normalizes the 0-100 integer to a rational in [0, 1]. -/
theorem c7_rebind_pulls_immediately {α : Type} (track : String → Option α)
    (strengthOf : α → Option Nat) (init : String) (evs : List StrengthEvent)
    (id : String) (proxy : α) (q : Nat)
    (htrack : track id = some proxy) (hq : strengthOf proxy = some q)
    (hq100 : q ≤ 100) :
    (strengthLoopRun track strengthOf init
        (evs ++ [StrengthEvent.selectorChanged id])).out
      = (strengthLoopRun track strengthOf init evs).out ++ [convert_strength q]
    ∧ (strengthLoopRun track strengthOf init
        (evs ++ [StrengthEvent.selectorChanged id])).tracked = some proxy
    ∧ (strengthLoopRun track strengthOf init
        (evs ++ [StrengthEvent.selectorChanged id])).read = false
    ∧ 0 ≤ convert_strength q ∧ convert_strength q ≤ 1 := by
  have hrun : strengthLoopRun track strengthOf init
      (evs ++ [StrengthEvent.selectorChanged id])
      = strengthLoopStep track strengthOf
          (strengthLoopRun track strengthOf init evs)
          (StrengthEvent.selectorChanged id) := by
    simp [strengthLoopRun, List.foldl_append]
  have hstep : strengthLoopStep track strengthOf
      (strengthLoopRun track strengthOf init evs)
      (StrengthEvent.selectorChanged id)
      = ⟨some proxy, false,
          (strengthLoopRun track strengthOf init evs).out ++ [convert_strength q]⟩ := by
    simp [strengthLoopStep, strengthLoopBranch, strengthLoopTop, htrack, hq]
  refine ⟨?_, ?_, ?_, ?_, ?_⟩
  · rw [hrun, hstep]
  · rw [hrun, hstep]
  · rw [hrun, hstep]
  · unfold convert_strength
    positivity
  · unfold convert_strength
    rw [div_le_one (by norm_num)]
    exact_mod_cast hq100

/-- Witness for c7_rebind_pulls_immediately: the wireless flavor, tracking
through track_ap with a concrete bind oracle; after a notification event,
switching the selector to "/ap2" immediately pushes its pulled strength
80/100. -/
theorem c7_rebind_pulls_immediately_witness :
    ((fun s => (track_ap (fun t => if t = "/ap2" then some 7 else none) s).1) ("/ap2")
        = some 7
      ∧ ((fun _ : Nat => some 80) 7 : Option Nat) = some 80 ∧ (80 : Nat) ≤ 100)
    ∧ ((strengthLoopRun
          (fun s => (track_ap (fun t => if t = "/ap2" then some 7 else none) s).1)
          (fun _ => some 80) ("/ap1")
          ([StrengthEvent.notification 55] ++ [StrengthEvent.selectorChanged ("/ap2")])).out
        = (strengthLoopRun
            (fun s => (track_ap (fun t => if t = "/ap2" then some 7 else none) s).1)
            (fun _ => some 80) ("/ap1") [StrengthEvent.notification 55]).out
          ++ [convert_strength 80]
      ∧ (strengthLoopRun
          (fun s => (track_ap (fun t => if t = "/ap2" then some 7 else none) s).1)
          (fun _ => some 80) ("/ap1")
          ([StrengthEvent.notification 55] ++ [StrengthEvent.selectorChanged ("/ap2")])).tracked
        = some 7
      ∧ (strengthLoopRun
          (fun s => (track_ap (fun t => if t = "/ap2" then some 7 else none) s).1)
          (fun _ => some 80) ("/ap1")
          ([StrengthEvent.notification 55] ++ [StrengthEvent.selectorChanged ("/ap2")])).read
        = false
      ∧ 0 ≤ convert_strength 80 ∧ convert_strength 80 ≤ 1) :=
  ⟨⟨by decide, rfl, by decide⟩,
   c7_rebind_pulls_immediately
     (fun s => (track_ap (fun t => if t = "/ap2" then some 7 else none) s).1)
     (fun _ => some 80) ("/ap1") [StrengthEvent.notification 55] ("/ap2") 7 80
     (by decide) rfl (by decide)⟩
